import Mathlib

/-!
Shallow embedding of the two launcher scripts of the repository
(`src/local_server.py` and `src/webapp/start_server.py`) and proofs about
their port-selection, CORS-header, lifecycle, and browser-launch behavior.

Both scripts probe TCP ports 8000..8009 in ascending order, serve static
files, optionally open a browser, and stop on Ctrl+C.  The embedding models
a whole run of each script as a pure function of an environment (which ports
are occupied, whether the platform can open a browser, whether an operator
interrupt is delivered while serving) to an outcome (exit code or serving
forever) together with a trace of observable events (bind attempts, socket
opens and closes, browser-open attempts, serve-loop entry, console
messages).
-/

namespace SchemaValidatorLauncher

/-- The probe range of both scripts: `range(8000, 8010)` in the Python
sources, i.e. ports 8000..8009 in ascending order. -/
def probeRange : List Nat := List.range' 8000 10

/-- Environment of one run.  `occupied p = true` means a bind attempt on
port `p` raises `OSError` (port already in use); the set is fixed for the
whole run.  `browserOk` tells whether the platform `webbrowser.open` call
succeeds.  `interrupted` tells whether a `KeyboardInterrupt` (Ctrl+C) is
delivered while the server is in its serve loop. -/
structure Env where
  occupied : Nat → Bool
  browserOk : Bool
  interrupted : Bool

/-- Final outcome of a run: the process exits with a code, or blocks in
`serve_forever` on the bound port (no interrupt ever delivered). -/
inductive Outcome where
  | exited (code : Nat)
  | serving (port : Nat)
deriving DecidableEq, Repr

/-- Observable events of a run, in order of occurrence. -/
inductive Event where
  /-- A `TCPServer(("", p), …)` constructor call, i.e. a bind attempt. -/
  | bindAttempt (p : Nat)
  /-- The bind attempt succeeded: a listening socket on `p` is now open. -/
  | bindOk (p : Nat)
  /-- The listening socket on `p` was closed (`with`-block exit). -/
  | close (p : Nat)
  /-- `webbrowser.open(url)` was attempted. -/
  | browserTry (url : String)
  /-- The browser failure was caught and an informational message printed
  (`except: print("💡 Please open the URL manually …")`). -/
  | browserInfo
  /-- The browser failure escaped uncaught inside the background thread
  (no `try`/`except` in `open_browser`): a thread traceback, not a log. -/
  | threadUncaught
  /-- `threading.Thread(target=open_browser).start()` was called. -/
  | spawnThread
  /-- `httpd.serve_forever()` was entered on port `p`: request handling
  begins. -/
  | serveLoop (p : Nat)
  /-- A console message was printed. -/
  | msg (s : String)
deriving DecidableEq, Repr

/-- First candidate of `l` on which a bind succeeds (is not occupied);
`none` when every candidate is occupied.  This is the selection performed
by the `for … try … except OSError: continue` loops of both scripts. -/
def firstFree (occ : Nat → Bool) : List Nat → Option Nat
  | [] => none
  | p :: rest => if occ p then firstFree occ rest else some p

/-- `true` iff some port of the probe range is free. -/
def hasFree (occ : Nat → Bool) : Bool :=
  probeRange.any (fun p => !occ p)

/-- The value of the `port` variable of `src/local_server.py` after its
probe loop (lines 24-33): initialized to 8000, set to the first candidate
in `range(8000, 8010)` that binds, left at 8000 when every candidate
raises `OSError`. -/
def localChosen (occ : Nat → Bool) : Nat :=
  (firstFree occ probeRange).getD 8000

/-- Event trace of the probe loop of `src/local_server.py`: each occupied
candidate contributes a failed bind attempt and the loop continues; the
first free candidate is bound inside a `with` block and immediately closed
again by the `break` leaving the block. -/
def localProbeTrace (occ : Nat → Bool) : List Nat → List Event
  | [] => []
  | p :: rest =>
    if occ p then Event.bindAttempt p :: localProbeTrace occ rest
    else [Event.bindAttempt p, Event.bindOk p, Event.close p]

/-- URL opened by `src/local_server.py`:
`webbrowser.open(f'http://localhost:{port}')` — no path component. -/
def localUrl (port : Nat) : String :=
  "http://localhost:" ++ toString port

/-- URL opened by `src/webapp/start_server.py`:
`webbrowser.open(f"http://localhost:{PORT}/index.html")`. -/
def startUrl (port : Nat) : String :=
  "http://localhost:" ++ toString port ++ "/index.html"

/-- Browser-thread events of `src/local_server.py`.  The thread body
`open_browser` has no `try`/`except`: on failure the exception is uncaught
inside the daemon thread. -/
def localBrowserEvents (e : Env) (port : Nat) : List Event :=
  if e.browserOk then [Event.browserTry (localUrl port)]
  else [Event.browserTry (localUrl port), Event.threadUncaught]

/-- Browser events of `src/webapp/start_server.py` (lines 90-95): the
`webbrowser.open` call sits in a `try`; on failure the bare `except`
prints an informational message and execution continues. -/
def startBrowserEvents (e : Env) (port : Nat) : List Event :=
  if e.browserOk then [Event.browserTry (startUrl port)]
  else [Event.browserTry (startUrl port), Event.browserInfo]

/-- Events of `src/local_server.py` from its second `TCPServer` bind on
the chosen port onward, in the successful-bind case: status prints, the
browser thread is spawned, `serve_forever` is entered, and — because
`open_browser` first executes `time.sleep(1)` while the main thread enters
`serve_forever` immediately — the browser-open attempt occurs after the
serve loop has been entered.  On interrupt the `with` block closes the
socket and the `except KeyboardInterrupt` branch prints a message. -/
def localServeTrace (e : Env) (port : Nat) : List Event :=
  [Event.bindAttempt port, Event.bindOk port, Event.spawnThread,
    Event.serveLoop port] ++ localBrowserEvents e port ++
    (if e.interrupted then
      [Event.close port, Event.msg "Server stopped by user"] else [])

/-- Full run of `src/local_server.py`'s `main` (plus module exit):
probe loop, then a fresh `TCPServer` bind on the `port` variable.  If that
bind raises (every probe candidate was occupied, so `port` stayed 8000 and
8000 is occupied), the `except Exception` branch prints a generic error
and calls `sys.exit(1)`.  Otherwise the script serves; a
`KeyboardInterrupt` while serving is caught and the process ends with
exit code 0. -/
def localMain (e : Env) : Outcome × List Event :=
  let port := localChosen e.occupied
  if e.occupied port then
    (Outcome.exited 1,
      localProbeTrace e.occupied probeRange ++
        [Event.bindAttempt port, Event.msg "Error starting server"])
  else
    ((if e.interrupted then Outcome.exited 0 else Outcome.serving port),
      localProbeTrace e.occupied probeRange ++ localServeTrace e port)

/-- Per-port serving events of `src/webapp/start_server.py` once a
candidate binds (lines 81-98): the bind succeeds, status lines print, the
browser-open is attempted synchronously inside its `try`, and only then is
`serve_forever` entered.  A `KeyboardInterrupt` propagates out of the
`with` block (closing the socket) to the `__main__` handler, which prints
a message; the process then exits 0. -/
def startServeTrace (e : Env) (port : Nat) : List Event :=
  [Event.bindAttempt port, Event.bindOk port] ++ startBrowserEvents e port ++
    [Event.serveLoop port] ++
    (if e.interrupted then
      [Event.close port, Event.msg "Server stopped by user"] else [])

/-- Outcome of `src/webapp/start_server.py` once a candidate binds:
exit 0 after an interrupt, otherwise serving forever. -/
def startServeOutcome (e : Env) (port : Nat) : Outcome :=
  if e.interrupted then Outcome.exited 0 else Outcome.serving port

/-- The `for port in range(8000, 8010) … else` loop of
`src/webapp/start_server.py` (lines 79-104): each occupied candidate's
`OSError` is swallowed and the next is tried; the first free candidate is
bound and served inside the loop; if no candidate binds, the `else` clause
prints an exhaustion message and calls `sys.exit(1)`. -/
def startLoop (e : Env) : List Nat → Outcome × List Event
  | [] =>
    (Outcome.exited 1,
      [Event.msg "Could not find an available port in range 8000-8009"])
  | p :: rest =>
    if e.occupied p then
      let r := startLoop e rest
      (r.1, Event.bindAttempt p :: r.2)
    else (startServeOutcome e p, startServeTrace e p)

/-- Full run of `src/webapp/start_server.py`. -/
def startMain (e : Env) : Outcome × List Event :=
  startLoop e probeRange

/-- Ports of the bind attempts of a trace, in order. -/
def bindAttemptsOf (t : List Event) : List Nat :=
  t.filterMap fun ev =>
    match ev with
    | Event.bindAttempt p => some p
    | _ => none

/-- Ports of the successful binds of a trace, in order. -/
def bindOksOf (t : List Event) : List Nat :=
  t.filterMap fun ev =>
    match ev with
    | Event.bindOk p => some p
    | _ => none

/-- The port `src/webapp/start_server.py` actually binds in a run
(`none` when the range is exhausted): the first successfully bound port of
its trace. -/
def startBound (e : Env) : Option Nat :=
  (bindOksOf (startMain e).2).head?

/-- Net change an event makes to the number of open listening sockets. -/
def netOpen (ev : Event) : Int :=
  match ev with
  | Event.bindOk _ => 1
  | Event.close _ => -1
  | _ => 0

/-- Maximum, over every prefix of the trace, of the number of open
listening sockets, starting from `cur` open sockets. -/
def maxOpen (cur : Int) : List Event → Int
  | [] => cur
  | ev :: rest => max cur (maxOpen (cur + netOpen ev) rest)

/-- `true` iff, scanning the trace left to right, an event satisfying `a`
occurs strictly before any event satisfying `b`, and an event satisfying
`b` does occur after it. -/
def precedes (a b : Event → Bool) : List Event → Bool
  | [] => false
  | ev :: rest =>
    if a ev then rest.any b
    else if b ev then false
    else precedes a b rest

/-- Recognizer for successful-bind events. -/
def isBindOk (ev : Event) : Bool :=
  match ev with
  | Event.bindOk _ => true
  | _ => false

/-- Recognizer for browser-open attempts. -/
def isBrowserTry (ev : Event) : Bool :=
  match ev with
  | Event.browserTry _ => true
  | _ => false

/-- Recognizer for serve-loop entry. -/
def isServeLoop (ev : Event) : Bool :=
  match ev with
  | Event.serveLoop _ => true
  | _ => false

/-- The three CORS headers sent by `CustomHTTPRequestHandler.end_headers`
of `src/local_server.py`, with their exact literal values. -/
def corsHeaders : List (String × String) :=
  [("Access-Control-Allow-Origin", "*"),
   ("Access-Control-Allow-Methods", "GET, POST, OPTIONS"),
   ("Access-Control-Allow-Headers", "Content-Type")]

/-- The three CORS header names. -/
def corsHeaderNames : List String :=
  ["Access-Control-Allow-Origin", "Access-Control-Allow-Methods",
   "Access-Control-Allow-Headers"]

/-- `CustomHTTPRequestHandler.end_headers` (CORS-enabled variant,
`src/local_server.py` lines 17-21): three `send_header` calls append the
fixed CORS headers to whatever headers the response had already buffered,
then `super().end_headers()` flushes.  Runs on every response. -/
def customEndHeaders (base : List (String × String)) : List (String × String) :=
  base ++ corsHeaders

/-- `SimpleHTTPRequestHandler.end_headers` (plain variant used by
`src/webapp/start_server.py`): no headers are added, the buffered headers
are flushed unchanged. -/
def plainEndHeaders (base : List (String × String)) : List (String × String) :=
  base

/-- Served root of `src/webapp/start_server.py`: the script computes
`webapp_dir = Path(__file__).parent` and `os.chdir(webapp_dir)`, then the
plain handler serves the current directory — so the served root is the
directory containing the script, whatever the invocation directory was. -/
def startServedRoot (scriptDir cwd : String) : String :=
  scriptDir

/-- Served root of `src/local_server.py`: the handler is constructed with
`directory="webapp"`, a relative path, which Python's handler resolves
against the process's current working directory — so the served root is
`cwd/webapp`, not a script-relative location. -/
def localServedRoot (scriptDir cwd : String) : String :=
  cwd ++ "/webapp"

/-! ### Helper lemmas about the selection function and trace shapes -/

theorem firstFree_eq_none {occ : Nat → Bool} :
    ∀ {l : List Nat}, firstFree occ l = none ↔ ∀ p ∈ l, occ p = true := by
  intro l
  induction l with
  | nil => simp [firstFree]
  | cons q rest ih =>
    by_cases hq : occ q = true
    · simp [firstFree, hq, ih]
    · simp only [Bool.not_eq_true] at hq
      simp [firstFree, hq]

theorem firstFree_not_occ {occ : Nat → Bool} :
    ∀ {l : List Nat} {p : Nat}, firstFree occ l = some p → occ p = false := by
  intro l
  induction l with
  | nil => intro p h; simp [firstFree] at h
  | cons q rest ih =>
    intro p h
    by_cases hq : occ q = true
    · exact ih (by simpa [firstFree, hq] using h)
    · simp [firstFree, hq] at h
      simpa [← h] using hq

theorem firstFree_mem {occ : Nat → Bool} :
    ∀ {l : List Nat} {p : Nat}, firstFree occ l = some p → p ∈ l := by
  intro l
  induction l with
  | nil => intro p h; simp [firstFree] at h
  | cons q rest ih =>
    intro p h
    by_cases hq : occ q = true
    · exact List.mem_cons_of_mem q (ih (by simpa [firstFree, hq] using h))
    · simp [firstFree, hq] at h
      simp [h]

theorem firstFree_min {occ : Nat → Bool} :
    ∀ {l : List Nat} {p : Nat}, l.Pairwise (· < ·) →
      firstFree occ l = some p → ∀ q ∈ l, occ q = false → p ≤ q := by
  intro l
  induction l with
  | nil => intro p _ h; simp [firstFree] at h
  | cons a rest ih =>
    intro p hpw h q hq hfree
    rcases List.pairwise_cons.mp hpw with ⟨ha, hrest⟩
    by_cases hA : occ a = true
    · have h' : firstFree occ rest = some p := by simpa [firstFree, hA] using h
      rcases List.mem_cons.mp hq with rfl | hq'
      · exact absurd hA (by simp [hfree])
      · exact ih hrest h' q hq' hfree
    · have hp : p = a := by
        have := h
        simp [firstFree, hA] at this
        exact this.symm
      subst hp
      rcases List.mem_cons.mp hq with rfl | hq'
      · exact le_refl _
      · exact le_of_lt (ha q hq')

theorem firstFree_isSome_of_hasFree {occ : Nat → Bool}
    (h : hasFree occ = true) : ∃ p, firstFree occ probeRange = some p := by
  rcases hx : firstFree occ probeRange with _ | p
  · exfalso
    rcases List.any_eq_true.mp h with ⟨q, hq, hfree⟩
    have := firstFree_eq_none.mp hx q hq
    simp [this] at hfree
  · exact ⟨p, rfl⟩

theorem hasFree_of_firstFree {occ : Nat → Bool} {p : Nat}
    (h : firstFree occ probeRange = some p) : hasFree occ = true :=
  List.any_eq_true.mpr
    ⟨p, firstFree_mem h, by simp [firstFree_not_occ h]⟩

theorem hasFree_false_iff {occ : Nat → Bool} :
    hasFree occ = false ↔ ∀ p ∈ probeRange, occ p = true := by
  constructor
  · intro h p hp
    by_contra hc
    have : hasFree occ = true :=
      List.any_eq_true.mpr ⟨p, hp, by simp [Bool.not_eq_true] at hc ⊢; simp [hc]⟩
    simp [this] at h
  · intro h
    rcases hx : hasFree occ with _ | _
    · rfl
    · rcases List.any_eq_true.mp hx with ⟨q, hq, hfree⟩
      have := h q hq
      simp [this] at hfree

theorem takeWhile_select_prefix {occ : Nat → Bool} :
    ∀ {l : List Nat} {p : Nat}, firstFree occ l = some p →
      ∃ t, (l.takeWhile occ ++ [p]) ++ t = l := by
  intro l
  induction l with
  | nil => intro p h; simp [firstFree] at h
  | cons q rest ih =>
    intro p h
    by_cases hq : occ q = true
    · rcases ih (by simpa [firstFree, hq] using h) with ⟨t, ht⟩
      exact ⟨t, by simp [List.takeWhile_cons, hq, ht]⟩
    · have hp : p = q := by
        have := h
        simp [firstFree, hq] at this
        exact this.symm
      subst hp
      exact ⟨rest, by simp [List.takeWhile_cons, hq]⟩

theorem localProbeTrace_of_some {occ : Nat → Bool} :
    ∀ {l : List Nat} {p : Nat}, firstFree occ l = some p →
      localProbeTrace occ l =
        (l.takeWhile occ).map Event.bindAttempt ++
          [Event.bindAttempt p, Event.bindOk p, Event.close p] := by
  intro l
  induction l with
  | nil => intro p h; simp [firstFree] at h
  | cons q rest ih =>
    intro p h
    by_cases hq : occ q = true
    · have h' : firstFree occ rest = some p := by simpa [firstFree, hq] using h
      simp [localProbeTrace, hq, ih h', List.takeWhile_cons]
    · have hp : p = q := by
        have := h
        simp [firstFree, hq] at this
        exact this.symm
      subst hp
      simp [localProbeTrace, hq, List.takeWhile_cons]

theorem localProbeTrace_of_none {occ : Nat → Bool} :
    ∀ {l : List Nat}, firstFree occ l = none →
      localProbeTrace occ l = l.map Event.bindAttempt := by
  intro l
  induction l with
  | nil => intro _; simp [localProbeTrace]
  | cons q rest ih =>
    intro h
    have hq : occ q = true := by
      by_contra hc
      simp [firstFree, hc] at h
    have h' : firstFree occ rest = none := by simpa [firstFree, hq] using h
    simp [localProbeTrace, hq, ih h']

theorem startLoop_of_some {e : Env} :
    ∀ {l : List Nat} {p : Nat}, firstFree e.occupied l = some p →
      startLoop e l =
        (startServeOutcome e p,
          (l.takeWhile e.occupied).map Event.bindAttempt ++ startServeTrace e p) := by
  intro l
  induction l with
  | nil => intro p h; simp [firstFree] at h
  | cons q rest ih =>
    intro p h
    by_cases hq : e.occupied q = true
    · have h' : firstFree e.occupied rest = some p := by
        simpa [firstFree, hq] using h
      simp [startLoop, hq, ih h', List.takeWhile_cons]
    · have hp : p = q := by
        have := h
        simp [firstFree, hq] at this
        exact this.symm
      subst hp
      simp [startLoop, hq, List.takeWhile_cons]

theorem startLoop_of_none {e : Env} :
    ∀ {l : List Nat}, firstFree e.occupied l = none →
      startLoop e l =
        (Outcome.exited 1,
          l.map Event.bindAttempt ++
            [Event.msg "Could not find an available port in range 8000-8009"]) := by
  intro l
  induction l with
  | nil => intro _; simp [startLoop]
  | cons q rest ih =>
    intro h
    have hq : e.occupied q = true := by
      by_contra hc
      simp [firstFree, hc] at h
    have h' : firstFree e.occupied rest = none := by simpa [firstFree, hq] using h
    simp [startLoop, hq, ih h']

theorem bindAttemptsOf_map_attempts (l : List Nat) (r : List Event) :
    bindAttemptsOf (l.map Event.bindAttempt ++ r) = l ++ bindAttemptsOf r := by
  induction l with
  | nil => rfl
  | cons p rest ih => simp [bindAttemptsOf, List.filterMap_cons] at ih ⊢; exact ih

theorem bindOksOf_map_attempts (l : List Nat) (r : List Event) :
    bindOksOf (l.map Event.bindAttempt ++ r) = bindOksOf r := by
  induction l with
  | nil => rfl
  | cons p rest ih => simpa [bindOksOf, List.filterMap_cons] using ih

theorem hasFree_eq_isSome (occ : Nat → Bool) :
    hasFree occ = (firstFree occ probeRange).isSome := by
  rcases hx : firstFree occ probeRange with _ | p
  · simp [hasFree_false_iff.mpr (firstFree_eq_none.mp hx)]
  · simp [hasFree_of_firstFree hx]

theorem le_maxOpen (cur : Int) : ∀ l : List Event, cur ≤ maxOpen cur l := by
  intro l
  induction l generalizing cur with
  | nil => exact le_refl _
  | cons ev rest ih => exact le_max_left _ _

theorem maxOpen_map_attempts (l : List Nat) (cur : Int) (r : List Event) :
    maxOpen cur (l.map Event.bindAttempt ++ r) = maxOpen cur r := by
  induction l with
  | nil => rfl
  | cons p rest ih =>
    have h1 : maxOpen cur ((p :: rest).map Event.bindAttempt ++ r)
        = max cur (maxOpen cur (rest.map Event.bindAttempt ++ r)) := by
      simp [maxOpen, netOpen]
    rw [h1, ih]
    exact max_eq_right (le_maxOpen cur r)

theorem precedes_map_attempts (a b : Event → Bool)
    (ha : ∀ p, a (Event.bindAttempt p) = false)
    (hb : ∀ p, b (Event.bindAttempt p) = false)
    (l : List Nat) (r : List Event) :
    precedes a b (l.map Event.bindAttempt ++ r) = precedes a b r := by
  induction l with
  | nil => rfl
  | cons p rest ih =>
    simp only [List.map_cons, List.cons_append, precedes, ha, hb]
    simpa using ih

theorem bindOksOf_startServeTrace (e : Env) (p : Nat) :
    bindOksOf (startServeTrace e p) = [p] := by
  rcases hb : e.browserOk with _ | _ <;> rcases hi : e.interrupted with _ | _ <;>
    simp [startServeTrace, startBrowserEvents, bindOksOf, List.filterMap_cons, hb, hi]

theorem bindAttemptsOf_startServeTrace (e : Env) (p : Nat) :
    bindAttemptsOf (startServeTrace e p) = [p] := by
  rcases hb : e.browserOk with _ | _ <;> rcases hi : e.interrupted with _ | _ <;>
    simp [startServeTrace, startBrowserEvents, bindAttemptsOf, List.filterMap_cons, hb, hi]

/-! ### Concrete model inputs used by witnesses and counterexamples -/

/-- Ports 8000 and 8001 busy, everything else free: the first free probe
candidate is 8002. -/
def occSample : Nat → Bool := fun p => p == 8000 || p == 8001

/-- Every port busy: the probe range is exhausted. -/
def occFull : Nat → Bool := fun _ => true

/-- Every port free. -/
def occEmpty : Nat → Bool := fun _ => false

/-- A run with ports 8000-8001 busy, a working browser, and a Ctrl+C
delivered while serving. -/
def envSample : Env := ⟨occSample, true, true⟩

/-- A run in which every port of the probe range is occupied. -/
def envFull : Env := ⟨occFull, true, false⟩

/-- A run with all ports free and a platform that cannot open a browser;
no interrupt is delivered. -/
def envNoBrowser : Env := ⟨occEmpty, false, false⟩

/-- A run with all ports free, a working browser, and no interrupt. -/
def envPlain : Env := ⟨occEmpty, true, false⟩

/-! ### Claims -/

/-- Claim C1: for every set of already-occupied ports, the port-selection
loop of both scripts tries candidates 8000 through 8009 in ascending order
(the attempted ports form a prefix of the probe range, hence are strictly
increasing and inside the range), swallows each individual bind failure
locally (every pre-selection attempt is on an occupied port, probing
continues with the next candidate, and no error message is surfaced during
probing), and selects the first, i.e. smallest, free port in the range. -/
theorem C1_selects_first_free (e : Env) (h : hasFree e.occupied = true) :
    ∃ p, firstFree e.occupied probeRange = some p ∧
      e.occupied p = false ∧
      p ∈ probeRange ∧
      (∀ q ∈ probeRange, e.occupied q = false → p ≤ q) ∧
      bindAttemptsOf (localProbeTrace e.occupied probeRange) =
        probeRange.takeWhile e.occupied ++ [p] ∧
      bindAttemptsOf (startMain e).2 =
        probeRange.takeWhile e.occupied ++ [p] ∧
      (∀ q ∈ probeRange.takeWhile e.occupied, e.occupied q = true) ∧
      (∃ t, (probeRange.takeWhile e.occupied ++ [p]) ++ t = probeRange) ∧
      (probeRange.takeWhile e.occupied ++ [p]).Pairwise (· < ·) ∧
      (∀ s, Event.msg s ∉ localProbeTrace e.occupied probeRange) := by
  obtain ⟨p, hf⟩ := firstFree_isSome_of_hasFree h
  refine ⟨p, hf, firstFree_not_occ hf, firstFree_mem hf,
    firstFree_min (by decide) hf, ?_, ?_, ?_, takeWhile_select_prefix hf, ?_, ?_⟩
  · rw [localProbeTrace_of_some hf, bindAttemptsOf_map_attempts]
    simp [bindAttemptsOf, List.filterMap_cons]
  · simp [startMain, startLoop_of_some hf, bindAttemptsOf_map_attempts,
      bindAttemptsOf_startServeTrace]
  · intro q hq
    exact List.mem_takeWhile_imp hq
  · obtain ⟨t, ht⟩ := takeWhile_select_prefix hf
    have hsub : List.Sublist (probeRange.takeWhile e.occupied ++ [p]) probeRange := by
      conv_rhs => rw [← ht]
      exact List.sublist_append_left _ t
    exact List.Pairwise.sublist hsub (by decide)
  · intro s
    rw [localProbeTrace_of_some hf]
    simp

/-- Witness for C1 at a run in which ports 8000 and 8001 are occupied:
the selection settles on port 8002. -/
theorem C1_witness :
    hasFree envSample.occupied = true ∧
    (∃ p, firstFree envSample.occupied probeRange = some p ∧
      envSample.occupied p = false ∧
      p ∈ probeRange ∧
      (∀ q ∈ probeRange, envSample.occupied q = false → p ≤ q) ∧
      bindAttemptsOf (localProbeTrace envSample.occupied probeRange) =
        probeRange.takeWhile envSample.occupied ++ [p] ∧
      bindAttemptsOf (startMain envSample).2 =
        probeRange.takeWhile envSample.occupied ++ [p] ∧
      (∀ q ∈ probeRange.takeWhile envSample.occupied,
        envSample.occupied q = true) ∧
      (∃ t, (probeRange.takeWhile envSample.occupied ++ [p]) ++ t = probeRange) ∧
      (probeRange.takeWhile envSample.occupied ++ [p]).Pairwise (· < ·) ∧
      (∀ s, Event.msg s ∉ localProbeTrace envSample.occupied probeRange)) :=
  ⟨by decide, C1_selects_first_free envSample (by decide)⟩

/-- Claim C10 counterexample: when every port of the probe range is
occupied, the two variants do not choose the same port — the `port`
variable of `src/local_server.py` falls back to 8000 (which `main` then
proceeds to bind), while `src/webapp/start_server.py` binds nothing. -/
theorem C10_counterexample :
    some (localChosen envFull.occupied) ≠ startBound envFull ∧
    localChosen envFull.occupied = 8000 ∧
    startBound envFull = none := by decide

/-- Claim C10 (amended): whenever at least one port of 8000..8009 is free,
the port-selection loops of `src/local_server.py` and
`src/webapp/start_server.py` are extensionally equivalent: both settle on
the least free port of the range.  (When every port is occupied the
variants diverge: `local_server.py` falls back to attempting port 8000
while `start_server.py` selects nothing and exits.) -/
theorem C10_same_port (e : Env) (h : hasFree e.occupied = true) :
    ∃ p, startBound e = some p ∧ localChosen e.occupied = p ∧
      e.occupied p = false ∧ p ∈ probeRange ∧
      ∀ q ∈ probeRange, e.occupied q = false → p ≤ q := by
  obtain ⟨p, hf⟩ := firstFree_isSome_of_hasFree h
  refine ⟨p, ?_, ?_, firstFree_not_occ hf, firstFree_mem hf,
    firstFree_min (by decide) hf⟩
  · simp [startBound, startMain, startLoop_of_some hf, bindOksOf_map_attempts,
      bindOksOf_startServeTrace]
  · simp [localChosen, hf]

/-- Witness for the amended C10 at a run with ports 8000-8001 occupied:
both variants settle on port 8002. -/
theorem C10_witness :
    hasFree envSample.occupied = true ∧
    (∃ p, startBound envSample = some p ∧
      localChosen envSample.occupied = p ∧
      envSample.occupied p = false ∧ p ∈ probeRange ∧
      ∀ q ∈ probeRange, envSample.occupied q = false → p ≤ q) :=
  ⟨by decide, C10_same_port envSample (by decide)⟩

/-- Claim C2 counterexample: with every port of the probe range occupied,
`src/local_server.py` does not stop after the ten in-range probes — its
`main` makes one further bind attempt on the fallback port 8000 (so port
8000 is attempted twice), and the failure it reports is the generic
startup error, not a port-exhaustion report. -/
theorem C2_counterexample :
    bindAttemptsOf (localMain envFull).2 = probeRange ++ [8000] ∧
    (bindAttemptsOf (localMain envFull).2).count 8000 = 2 ∧
    Event.msg "Error starting server" ∈ (localMain envFull).2 ∧
    Event.msg "Could not find an available port in range 8000-8009" ∉
      (localMain envFull).2 := by decide

/-- Claim C2 (amended): if every port in 8000..8009 is occupied, both
scripts exit with status 1 and no port is ever successfully bound, and no
port outside the range is ever attempted; `start_server.py` reports the
exhaustion after exactly the ten in-range attempts with no further retry,
while `local_server.py` makes one further (failing) bind attempt on the
fallback port 8000 and reports the resulting error generically. -/
theorem C2_exhaustion (e : Env) (h : hasFree e.occupied = false) :
    (localMain e).1 = Outcome.exited 1 ∧
    (startMain e).1 = Outcome.exited 1 ∧
    bindOksOf (localMain e).2 = [] ∧
    bindOksOf (startMain e).2 = [] ∧
    bindAttemptsOf (startMain e).2 = probeRange ∧
    bindAttemptsOf (localMain e).2 = probeRange ++ [8000] ∧
    (∀ q ∈ bindAttemptsOf (localMain e).2, q ∈ probeRange) ∧
    Event.msg "Could not find an available port in range 8000-8009" ∈
      (startMain e).2 ∧
    Event.msg "Error starting server" ∈ (localMain e).2 := by
  have hnone : firstFree e.occupied probeRange = none := by
    rcases hx : firstFree e.occupied probeRange with _ | p
    · rfl
    · rw [hasFree_eq_isSome, hx] at h
      simp at h
  have occ8000 : e.occupied 8000 = true :=
    hasFree_false_iff.mp h 8000 (by decide)
  have hch : localChosen e.occupied = 8000 := by simp [localChosen, hnone]
  have hloc : localMain e =
      (Outcome.exited 1,
        probeRange.map Event.bindAttempt ++
          [Event.bindAttempt 8000, Event.msg "Error starting server"]) := by
    simp [localMain, hch, occ8000, localProbeTrace_of_none hnone]
  have hst : startMain e =
      (Outcome.exited 1,
        probeRange.map Event.bindAttempt ++
          [Event.msg "Could not find an available port in range 8000-8009"]) := by
    simp [startMain, startLoop_of_none hnone]
  refine ⟨by rw [hloc], by rw [hst], ?_, ?_, ?_, ?_, ?_, ?_, ?_⟩
  · rw [hloc]
    simp [bindOksOf_map_attempts, bindOksOf, List.filterMap_cons]
  · rw [hst]
    simp [bindOksOf_map_attempts, bindOksOf, List.filterMap_cons]
  · rw [hst, bindAttemptsOf_map_attempts]
    simp [bindAttemptsOf, List.filterMap_cons]
  · rw [hloc, bindAttemptsOf_map_attempts]
    simp [bindAttemptsOf, List.filterMap_cons]
  · intro q hq
    rw [hloc, bindAttemptsOf_map_attempts] at hq
    simp [bindAttemptsOf, List.filterMap_cons] at hq
    rcases hq with hq | hq
    · exact hq
    · subst hq
      decide
  · rw [hst]
    simp
  · rw [hloc]
    simp

/-- Witness for the amended C2 at the run with every port occupied. -/
theorem C2_witness :
    hasFree envFull.occupied = false ∧
    ((localMain envFull).1 = Outcome.exited 1 ∧
    (startMain envFull).1 = Outcome.exited 1 ∧
    bindOksOf (localMain envFull).2 = [] ∧
    bindOksOf (startMain envFull).2 = [] ∧
    bindAttemptsOf (startMain envFull).2 = probeRange ∧
    bindAttemptsOf (localMain envFull).2 = probeRange ++ [8000] ∧
    (∀ q ∈ bindAttemptsOf (localMain envFull).2, q ∈ probeRange) ∧
    Event.msg "Could not find an available port in range 8000-8009" ∈
      (startMain envFull).2 ∧
    Event.msg "Error starting server" ∈ (localMain envFull).2) :=
  ⟨by decide, C2_exhaustion envFull (by decide)⟩

/-- A representative buffer of standard response headers, as produced by
the platform static-file handler before `end_headers` runs; it contains
none of the CORS header names. -/
def sampleBase : List (String × String) :=
  [("Content-type", "text/html"), ("Content-Length", "42")]

/-- Claim C3: for every response whose handler-produced headers do not
already use the three CORS names (as is the case for the platform
static-file handler), the CORS-enabled variant's `end_headers` appends
exactly the three fixed headers with their exact static values — the
appended block is the request-independent constant `corsHeaders`, each of
the three appears exactly once — while the plain variant leaves the
headers unchanged, so none of the three names appear. -/
theorem C3_cors_headers (base : List (String × String))
    (h : ∀ hv ∈ base, hv.1 ∉ corsHeaderNames) :
    customEndHeaders base = base ++ corsHeaders ∧
    (∀ hv ∈ corsHeaders, hv ∈ customEndHeaders base) ∧
    (customEndHeaders base).countP
      (fun hv => decide (hv.1 ∈ corsHeaderNames)) = 3 ∧
    (∀ hv ∈ corsHeaders, (customEndHeaders base).count hv = 1) ∧
    plainEndHeaders base = base ∧
    (∀ hv ∈ plainEndHeaders base, hv.1 ∉ corsHeaderNames) := by
  have hnames : ∀ hv ∈ corsHeaders, hv.1 ∈ corsHeaderNames := by decide
  refine ⟨rfl, ?_, ?_, ?_, rfl, h⟩
  · intro hv hm
    exact List.mem_append_right base hm
  · rw [customEndHeaders, List.countP_append]
    have h0 : base.countP (fun hv => decide (hv.1 ∈ corsHeaderNames)) = 0 := by
      rw [List.countP_eq_zero]
      intro a ha
      simpa using h a ha
    rw [h0]
    decide
  · intro hv hm
    rw [customEndHeaders, List.count_append]
    have hb : base.count hv = 0 := by
      rw [List.count_eq_zero]
      intro hin
      exact absurd (hnames hv hm) (h hv hin)
    rw [hb]
    simp [corsHeaders] at hm
    rcases hm with rfl | rfl | rfl <;> decide

/-- Witness for C3 at a representative header buffer. -/
theorem C3_witness :
    (∀ hv ∈ sampleBase, hv.1 ∉ corsHeaderNames) ∧
    (customEndHeaders sampleBase = sampleBase ++ corsHeaders ∧
    (∀ hv ∈ corsHeaders, hv ∈ customEndHeaders sampleBase) ∧
    (customEndHeaders sampleBase).countP
      (fun hv => decide (hv.1 ∈ corsHeaderNames)) = 3 ∧
    (∀ hv ∈ corsHeaders, (customEndHeaders sampleBase).count hv = 1) ∧
    plainEndHeaders sampleBase = sampleBase ∧
    (∀ hv ∈ plainEndHeaders sampleBase, hv.1 ∉ corsHeaderNames)) :=
  ⟨by decide, C3_cors_headers sampleBase (by decide)⟩

/-- Claim C4: a run in which an operator interrupt arrives while serving
exits with status 0 after closing its socket (clean shutdown), and for
both scripts the exit status is 0 exactly when a port was available and an
interrupt arrived, and 1 exactly when no port of the probe range was
available (the only startup fault expressible in the model, surfaced in
`local_server.py` through the generic startup-fault handler). -/
theorem C4_exit_codes (e : Env) :
    ((localMain e).1 = Outcome.exited 0 ↔
      hasFree e.occupied = true ∧ e.interrupted = true) ∧
    ((startMain e).1 = Outcome.exited 0 ↔
      hasFree e.occupied = true ∧ e.interrupted = true) ∧
    ((localMain e).1 = Outcome.exited 1 ↔ hasFree e.occupied = false) ∧
    ((startMain e).1 = Outcome.exited 1 ↔ hasFree e.occupied = false) ∧
    (hasFree e.occupied = true → e.interrupted = true →
      ∃ p, Event.close p ∈ (localMain e).2 ∧ Event.close p ∈ (startMain e).2) := by
  rcases hf : firstFree e.occupied probeRange with _ | p
  · have hfree : hasFree e.occupied = false := by
      rw [hasFree_eq_isSome, hf]
      rfl
    have occ8000 : e.occupied 8000 = true :=
      hasFree_false_iff.mp hfree 8000 (by decide)
    have hch : localChosen e.occupied = 8000 := by simp [localChosen, hf]
    refine ⟨?_, ?_, ?_, ?_, ?_⟩ <;>
      simp [localMain, startMain, startLoop_of_none hf, hch, occ8000, hfree]
  · have hfree : hasFree e.occupied = true := hasFree_of_firstFree hf
    have hocc : e.occupied p = false := firstFree_not_occ hf
    have hch : localChosen e.occupied = p := by simp [localChosen, hf]
    rcases hi : e.interrupted with _ | _
    · refine ⟨?_, ?_, ?_, ?_, ?_⟩ <;>
        simp [localMain, startMain, startLoop_of_some hf, startServeOutcome,
          hch, hocc, hfree, hi]
    · refine ⟨?_, ?_, ?_, ?_, ?_⟩
      · simp [localMain, hch, hocc, hfree, hi]
      · simp [startMain, startLoop_of_some hf, startServeOutcome, hfree, hi]
      · simp [localMain, hch, hocc, hfree, hi]
      · simp [startMain, startLoop_of_some hf, startServeOutcome, hfree, hi]
      · intro _ _
        refine ⟨p, ?_, ?_⟩
        · rcases hb : e.browserOk with _ | _ <;>
            simp [localMain, hch, hocc, localServeTrace, localBrowserEvents, hb, hi]
        · rcases hb : e.browserOk with _ | _ <;>
            simp [startMain, startLoop_of_some hf, startServeTrace,
              startBrowserEvents, hb, hi]

/-- Witness for C4 at a run with ports 8000-8001 occupied, interrupt
delivered: both scripts exit 0 after closing the socket on port 8002. -/
theorem C4_witness :
    ((localMain envSample).1 = Outcome.exited 0 ↔
      hasFree envSample.occupied = true ∧ envSample.interrupted = true) ∧
    ((startMain envSample).1 = Outcome.exited 0 ↔
      hasFree envSample.occupied = true ∧ envSample.interrupted = true) ∧
    ((localMain envSample).1 = Outcome.exited 1 ↔
      hasFree envSample.occupied = false) ∧
    ((startMain envSample).1 = Outcome.exited 1 ↔
      hasFree envSample.occupied = false) ∧
    (hasFree envSample.occupied = true → envSample.interrupted = true →
      ∃ p, Event.close p ∈ (localMain envSample).2 ∧
        Event.close p ∈ (startMain envSample).2) :=
  C4_exit_codes envSample

/-- Claim C5 counterexample: in a run of `src/local_server.py` with every
port free and a failing browser-launch capability, the failure is NOT
caught locally and NOT logged as an informational message — it escapes
uncaught inside the background thread — even though the server does still
reach its serve loop. -/
theorem C5_counterexample :
    Event.threadUncaught ∈ (localMain envNoBrowser).2 ∧
    Event.browserInfo ∉ (localMain envNoBrowser).2 ∧
    (localMain envNoBrowser).1 = Outcome.serving 8000 := by decide

/-- Claim C5 (amended): a browser-launch failure never aborts the server
in either script — the run outcome is identical to the same run with a
working browser, and an uninterrupted run still reaches the serve loop.
In `start_server.py` the failure is caught locally and logged as an
informational message; in `local_server.py` it is NOT caught: the
exception escapes inside the background browser thread, and only thread
isolation keeps the server unaffected. -/
theorem C5_browser_isolated (e : Env) (h : hasFree e.occupied = true) :
    (localMain e).1 = (localMain ⟨e.occupied, true, e.interrupted⟩).1 ∧
    (startMain e).1 = (startMain ⟨e.occupied, true, e.interrupted⟩).1 ∧
    (e.interrupted = false →
      ∃ p, (localMain e).1 = Outcome.serving p ∧
        (startMain e).1 = Outcome.serving p) ∧
    (e.browserOk = false →
      Event.browserInfo ∈ (startMain e).2 ∧
      Event.threadUncaught ∈ (localMain e).2) := by
  obtain ⟨p, hf⟩ := firstFree_isSome_of_hasFree h
  have hocc : e.occupied p = false := firstFree_not_occ hf
  refine ⟨?_, ?_, ?_, ?_⟩
  · simp [localMain, localChosen, hf, hocc]
  · simp [startMain, startLoop_of_some hf,
      startLoop_of_some (e := ⟨e.occupied, true, e.interrupted⟩) hf,
      startServeOutcome]
  · intro hi
    exact ⟨p, by simp [localMain, localChosen, hf, hocc, hi],
      by simp [startMain, startLoop_of_some hf, startServeOutcome, hi]⟩
  · intro hb
    constructor
    · simp [startMain, startLoop_of_some hf, startServeTrace,
        startBrowserEvents, hb]
    · simp [localMain, localChosen, hf, hocc, localServeTrace,
        localBrowserEvents, hb]

/-- Witness for the amended C5 at a run with all ports free, the browser
capability disabled, and no interrupt. -/
theorem C5_witness :
    hasFree envNoBrowser.occupied = true ∧
    ((localMain envNoBrowser).1 =
      (localMain ⟨envNoBrowser.occupied, true, envNoBrowser.interrupted⟩).1 ∧
    (startMain envNoBrowser).1 =
      (startMain ⟨envNoBrowser.occupied, true, envNoBrowser.interrupted⟩).1 ∧
    (envNoBrowser.interrupted = false →
      ∃ p, (localMain envNoBrowser).1 = Outcome.serving p ∧
        (startMain envNoBrowser).1 = Outcome.serving p) ∧
    (envNoBrowser.browserOk = false →
      Event.browserInfo ∈ (startMain envNoBrowser).2 ∧
      Event.threadUncaught ∈ (localMain envNoBrowser).2)) :=
  ⟨by decide, C5_browser_isolated envNoBrowser (by decide)⟩

/-- Claim C6 counterexample: the served root of `src/local_server.py`
depends on the process's current working directory — two invocations of
the same script from different directories serve different roots — so the
root is not resolved relative to the directory containing the script. -/
theorem C6_counterexample :
    localServedRoot "/repo" "/tmp/a" ≠ localServedRoot "/repo" "/tmp/b" ∧
    localServedRoot "/repo" "/tmp/a" = "/tmp/a/webapp" ∧
    localServedRoot "/repo" "/tmp/b" = "/tmp/b/webapp" := by decide

/-- Claim C6 (amended): `start_server.py` resolves its served root to the
directory containing the script, independently of the invocation
directory; `local_server.py` instead resolves its root `"webapp"` against
the current working directory, so its served file set depends on where the
command is invoked from. -/
theorem C6_root_resolution (scriptDir c₁ c₂ : String) :
    startServedRoot scriptDir c₁ = startServedRoot scriptDir c₂ ∧
    startServedRoot scriptDir c₁ = scriptDir ∧
    localServedRoot scriptDir c₁ = c₁ ++ "/webapp" :=
  ⟨rfl, rfl, rfl⟩

/-- Claim C7: in every run of either script, at most one listening socket
is open at any point of the trace: the maximum, over all trace prefixes,
of the number of sockets opened and not yet closed never exceeds one (in
particular the probe socket of `local_server.py` is closed before its
serving socket is bound). -/
theorem C7_single_socket (e : Env) :
    maxOpen 0 (localMain e).2 ≤ 1 ∧ maxOpen 0 (startMain e).2 ≤ 1 := by
  rcases hf : firstFree e.occupied probeRange with _ | p
  · have hfree : hasFree e.occupied = false := by
      rw [hasFree_eq_isSome, hf]
      rfl
    have occ8000 : e.occupied 8000 = true :=
      hasFree_false_iff.mp hfree 8000 (by decide)
    have hch : localChosen e.occupied = 8000 := by simp [localChosen, hf]
    constructor
    · have htr : (localMain e).2 = probeRange.map Event.bindAttempt ++
          [Event.bindAttempt 8000, Event.msg "Error starting server"] := by
        simp [localMain, hch, occ8000, localProbeTrace_of_none hf]
      rw [htr, maxOpen_map_attempts]
      simp [maxOpen, netOpen]
    · have htr : (startMain e).2 = probeRange.map Event.bindAttempt ++
          [Event.msg "Could not find an available port in range 8000-8009"] := by
        simp [startMain, startLoop_of_none hf]
      rw [htr, maxOpen_map_attempts]
      simp [maxOpen, netOpen]
  · have hocc : e.occupied p = false := firstFree_not_occ hf
    have hch : localChosen e.occupied = p := by simp [localChosen, hf]
    constructor
    · have htr : (localMain e).2 =
          (probeRange.takeWhile e.occupied).map Event.bindAttempt ++
            ([Event.bindAttempt p, Event.bindOk p, Event.close p] ++
              localServeTrace e p) := by
        simp [localMain, hch, hocc, localProbeTrace_of_some hf]
      rw [htr, maxOpen_map_attempts]
      rcases hb : e.browserOk with _ | _ <;> rcases hi : e.interrupted with _ | _ <;>
        simp [localServeTrace, localBrowserEvents, maxOpen, netOpen, hb, hi]
    · have htr : (startMain e).2 =
          (probeRange.takeWhile e.occupied).map Event.bindAttempt ++
            startServeTrace e p := by
        simp [startMain, startLoop_of_some hf]
      rw [htr, maxOpen_map_attempts]
      rcases hb : e.browserOk with _ | _ <;> rcases hi : e.interrupted with _ | _ <;>
        simp [startServeTrace, startBrowserEvents, maxOpen, netOpen, hb, hi]

/-- Claim C8 counterexample: a serving run of `src/local_server.py` in
which the serve loop is entered strictly before the browser-open is
attempted (the browser thread sleeps one second while the main thread
enters `serve_forever` immediately), contradicting "the browser-open is
attempted before request handling begins". -/
theorem C8_counterexample :
    (localMain envPlain).1 = Outcome.serving 8000 ∧
    precedes isServeLoop isBrowserTry (localMain envPlain).2 = true ∧
    precedes isBrowserTry isServeLoop (localMain envPlain).2 = false := by decide

/-- Claim C8 (amended): in every run that reaches the serving state, the
bind on the chosen port completes before the browser-open is attempted in
both scripts; in `start_server.py` the browser-open is attempted before
the serve loop is entered, but in `local_server.py` the delayed
background-thread browser-open occurs only after the serve loop has been
entered. -/
theorem C8_ordering (e : Env) (h : hasFree e.occupied = true) :
    precedes isBindOk isBrowserTry (localMain e).2 = true ∧
    precedes isBindOk isBrowserTry (startMain e).2 = true ∧
    precedes isBrowserTry isServeLoop (startMain e).2 = true ∧
    precedes isServeLoop isBrowserTry (localMain e).2 = true := by
  obtain ⟨p, hf⟩ := firstFree_isSome_of_hasFree h
  have hocc : e.occupied p = false := firstFree_not_occ hf
  have hch : localChosen e.occupied = p := by simp [localChosen, hf]
  have htr : (localMain e).2 =
      (probeRange.takeWhile e.occupied).map Event.bindAttempt ++
        ([Event.bindAttempt p, Event.bindOk p, Event.close p] ++
          localServeTrace e p) := by
    simp [localMain, hch, hocc, localProbeTrace_of_some hf]
  have hts : (startMain e).2 =
      (probeRange.takeWhile e.occupied).map Event.bindAttempt ++
        startServeTrace e p := by
    simp [startMain, startLoop_of_some hf]
  refine ⟨?_, ?_, ?_, ?_⟩
  · rw [htr, precedes_map_attempts _ _ (fun _ => rfl) (fun _ => rfl)]
    rcases hb : e.browserOk with _ | _ <;> rcases hi : e.interrupted with _ | _ <;>
      simp [precedes, localServeTrace, localBrowserEvents,
        isBindOk, isBrowserTry, isServeLoop, hb, hi]
  · rw [hts, precedes_map_attempts _ _ (fun _ => rfl) (fun _ => rfl)]
    rcases hb : e.browserOk with _ | _ <;> rcases hi : e.interrupted with _ | _ <;>
      simp [precedes, startServeTrace, startBrowserEvents,
        isBindOk, isBrowserTry, isServeLoop, hb, hi]
  · rw [hts, precedes_map_attempts _ _ (fun _ => rfl) (fun _ => rfl)]
    rcases hb : e.browserOk with _ | _ <;> rcases hi : e.interrupted with _ | _ <;>
      simp [precedes, startServeTrace, startBrowserEvents,
        isBindOk, isBrowserTry, isServeLoop, hb, hi]
  · rw [htr, precedes_map_attempts _ _ (fun _ => rfl) (fun _ => rfl)]
    rcases hb : e.browserOk with _ | _ <;> rcases hi : e.interrupted with _ | _ <;>
      simp [precedes, localServeTrace, localBrowserEvents,
        isBindOk, isBrowserTry, isServeLoop, hb, hi]

/-- Witness for the amended C8 at a run with ports 8000-8001 occupied. -/
theorem C8_witness :
    hasFree envSample.occupied = true ∧
    (precedes isBindOk isBrowserTry (localMain envSample).2 = true ∧
    precedes isBindOk isBrowserTry (startMain envSample).2 = true ∧
    precedes isBrowserTry isServeLoop (startMain envSample).2 = true ∧
    precedes isServeLoop isBrowserTry (localMain envSample).2 = true) :=
  ⟨by decide, C8_ordering envSample (by decide)⟩

/-- Claim C9 counterexample: a serving run of `src/local_server.py` bound
to port 8000 asks the platform to open `http://localhost:8000` — the bare
root URL, without the `/index.html` entry document — so the opened URL is
not `http://localhost:<p>/<entry_document>`. -/
theorem C9_counterexample :
    Event.browserTry "http://localhost:8000" ∈ (localMain envPlain).2 ∧
    Event.browserTry "http://localhost:8000/index.html" ∉
      (localMain envPlain).2 ∧
    (localMain envPlain).1 = Outcome.serving 8000 := by decide

/-- Claim C9 (amended): in every run that binds a port `p`,
`start_server.py` asks the platform to open exactly
`http://localhost:<p>/index.html`, while `local_server.py` asks it to open
`http://localhost:<p>` with no path — the entry document is only reached
because the server resolves a directory request to `index.html`. -/
theorem C9_browser_url (e : Env) (h : hasFree e.occupied = true) :
    ∃ p, firstFree e.occupied probeRange = some p ∧
      Event.browserTry (startUrl p) ∈ (startMain e).2 ∧
      Event.browserTry (localUrl p) ∈ (localMain e).2 ∧
      startUrl p = "http://localhost:" ++ toString p ++ "/index.html" ∧
      localUrl p = "http://localhost:" ++ toString p := by
  obtain ⟨p, hf⟩ := firstFree_isSome_of_hasFree h
  have hocc : e.occupied p = false := firstFree_not_occ hf
  refine ⟨p, hf, ?_, ?_, rfl, rfl⟩
  · rcases hb : e.browserOk with _ | _ <;>
      simp [startMain, startLoop_of_some hf, startServeTrace,
        startBrowserEvents, hb]
  · rcases hb : e.browserOk with _ | _ <;>
      simp [localMain, localChosen, hf, hocc, localServeTrace,
        localBrowserEvents, hb]

/-- Witness for the amended C9 at a run with all ports free. -/
theorem C9_witness :
    hasFree envPlain.occupied = true ∧
    (∃ p, firstFree envPlain.occupied probeRange = some p ∧
      Event.browserTry (startUrl p) ∈ (startMain envPlain).2 ∧
      Event.browserTry (localUrl p) ∈ (localMain envPlain).2 ∧
      startUrl p = "http://localhost:" ++ toString p ++ "/index.html" ∧
      localUrl p = "http://localhost:" ++ toString p) :=
  ⟨by decide, C9_browser_url envPlain (by decide)⟩

end SchemaValidatorLauncher
